import Mathlib

/-
Verification of the Apna-RAG query-orchestration layer.

The definitions below are a shallow embedding of the two Next.js route
handlers of the repository:

* `cloud-frontend/app/api/chat/route.ts` — the `/chat` handler (`POST`):
  parse the request body, validate `message`, best-effort fetch of
  `POST /search` on the retrieval service, compose the grounding prompt,
  call the LLM, shape the response.
* the `/api/ingest` proxy route (`POST`): relay `POST /ingest` to the
  local backend, mapping connection failure to a 503 error body.

Network effects are modelled by environment values describing the outcome
of each outbound call (`FetchOutcome`, `LLMOutcome`, `IngestFetch`), and
the handlers additionally return the trace of outbound calls they issued
(`List NetCall`), so that claims about which network calls happen can be
stated.  The parsed request body is `Option (Option String)`: `none` is a
body that is not valid JSON (so `request.json()` throws), `some none` is
valid JSON without a `message` field, `some (some s)` carries the message.
-/

set_option maxRecDepth 8192

namespace ApnaRAG

/-- A record of the retrieval service's `results` array
(`interface SearchResult` in `route.ts`). -/
structure SearchResult where
  text : String
  score : Float
  source : String

/-- Outcome of the `fetch` of `POST /search`: the fetch can throw
(network unreachable), return a non-ok status, return an ok status with a
body that fails to parse into `SearchResponse`, or succeed with a result
list. -/
inductive FetchOutcome where
  | networkError
  | httpError (status : Nat)
  | malformedBody
  | ok (results : List SearchResult)

/-- Outcome of `genAI.models.generateContent`: either the call throws, or
it returns a response whose `text` field is possibly absent
(`none`). -/
inductive LLMOutcome where
  | serviceError
  | ok (text : Option String)

/-- The environment one `/chat` request runs in: the `GEMINI_API_KEY`
value (`""` when the variable is unset, per `process.env.GEMINI_API_KEY
|| ""`), and the outcomes of the two outbound calls. -/
structure ChatEnv where
  geminiKey : String
  search : FetchOutcome
  llm : LLMOutcome

/-- The JSON response produced by the `/chat` handler: either an error
body `{ error }` with a status code, or a success body
`{ answer, sources?, hasContext }`. -/
inductive ChatResponse where
  | errorResp (status : Nat) (error : String)
  | success (answer : String) (sources : Option (List String)) (hasContext : Bool)
  deriving DecidableEq

/-- An outbound network call issued by the `/chat` handler, recorded with
its payload. -/
inductive NetCall where
  | retrieval (query : String) (topK : Nat)
  | llm (input : String)
  deriving DecidableEq

/-- The separator of `results.map(r => r.text).join("\n\n---\n\n")`. -/
def ctxSep : String := "\n\n---\n\n"

/-- JavaScript `Array.prototype.join`: elements interleaved with the
separator, empty string on the empty array. -/
def joinSep (sep : String) : List String → String
  | [] => ""
  | [x] => x
  | x :: y :: xs => x ++ sep ++ joinSep sep (y :: xs)

/-- Step 1 of the handler: the `context` string and `sources` list after
the inner `try`.  On `searchResponse.ok` with a well-formed body they are
computed from `searchData.results`; on any failure (fetch throw, non-ok
status, malformed body) the inner `catch`/`else` leaves the initial
values `context = ""`, `sources = []`. -/
def searchStep : FetchOutcome → String × List String
  | FetchOutcome.ok results =>
      (joinSep ctxSep (results.map (fun r => r.text)),
       results.map (fun r => r.source))
  | _ => ("", [])

/-- The fixed part of the `systemPrompt` template literal, up to the
interpolation point. -/
def promptIntro : String :=
  "You are a helpful AI assistant with access to the user\x27s personal knowledge base.\nAnswer questions using the provided context. If the context doesn\x27t contain relevant information, \nsay so and provide a general answer based on your training.\n\nContext from Knowledge Base:\n"

/-- The marker interpolated when `context` is falsy:
`${context || "No context available from local knowledge base."}`. -/
def noContextMarker : String := "No context available from local knowledge base."

/-- The fixed text joining the system prompt to the user question:
`systemPrompt + "\n\nUser Question: " + message`. -/
def questionHeader : String := "\n\nUser Question: "

/-- The spec's description of the composed LLM input: the fixed template
interpolated with a grounding text and the literal question. -/
def specInterpolate (grounding question : String) : String :=
  promptIntro ++ grounding ++ questionHeader ++ question

/-- The `systemPrompt` template literal of the handler.  `context ||
marker` on a string is the marker exactly when `context` is `""`. -/
def systemPrompt (context : String) : String :=
  promptIntro ++ (if context = "" then noContextMarker else context)

/-- The single `parts` text sent to `generateContent`:
`systemPrompt + "\n\nUser Question: " + message`. -/
def llmInput (context message : String) : String :=
  systemPrompt context ++ questionHeader ++ message

/-- Fallback answer: `response.text || "I couldn't generate a response."`. -/
def fallbackAnswer : String := "I couldn\x27t generate a response."

/-- Body of the outer `catch`:
`{ error: "An error occurred while processing your request." }`. -/
def genericErrorMsg : String := "An error occurred while processing your request."

/-- The configuration error body returned when `GEMINI_API_KEY` is
unset. -/
def configErrorMsg : String :=
  "Gemini API key not configured. Set GEMINI_API_KEY in environment."

/-- The 400 validation error message. -/
def messageRequiredMsg : String := "Message is required"

/-- JavaScript truthiness test `!message` on the destructured `message`
field: true when the field is absent (`undefined`) or the empty
string. -/
def isFalsyMessage : Option String → Bool
  | none => true
  | some s => decide (s = "")

/-- `const answer = response.text || "I couldn't generate a response."`:
the returned text unless it is absent or empty. -/
def llmAnswer : Option String → String
  | some s => if s = "" then fallbackAnswer else s
  | none => fallbackAnswer

/-- The `/chat` handler (`POST` of `app/api/chat/route.ts`), returning
the JSON response together with the trace of outbound network calls.
`body` is the result of `request.json()` (see the header comment). -/
def chatPOST (env : ChatEnv) (body : Option (Option String)) :
    ChatResponse × List NetCall :=
  match body with
  | none => (ChatResponse.errorResp 500 genericErrorMsg, [])
  | some msgOpt =>
    if isFalsyMessage msgOpt then
      (ChatResponse.errorResp 400 messageRequiredMsg, [])
    else
      let message := msgOpt.getD ""
      let cs := searchStep env.search
      if env.geminiKey = "" then
        (ChatResponse.errorResp 500 configErrorMsg,
         [NetCall.retrieval message 5])
      else
        match env.llm with
        | LLMOutcome.serviceError =>
            (ChatResponse.errorResp 500 genericErrorMsg,
             [NetCall.retrieval message 5, NetCall.llm (llmInput cs.1 message)])
        | LLMOutcome.ok t =>
            (ChatResponse.success (llmAnswer t)
               (if cs.2 = [] then none else some cs.2)
               (decide (cs.1 ≠ "")),
             [NetCall.retrieval message 5, NetCall.llm (llmInput cs.1 message)])

/-- The `sources` field of a response, when it is a success body. -/
def ChatResponse.sourcesField : ChatResponse → Option (List String)
  | ChatResponse.success _ s _ => s
  | _ => none

/-- The `hasContext` field of a response, when it is a success body. -/
def ChatResponse.hasContextField : ChatResponse → Option Bool
  | ChatResponse.success _ _ h => some h
  | _ => none

/-- The `answer` field of a response, when it is a success body. -/
def ChatResponse.answerField : ChatResponse → Option String
  | ChatResponse.success a _ _ => some a
  | _ => none

/-- Whether the `/search` fetch failed in any of the three ways the spec
lists (network unreachable, non-success status, malformed body). -/
def isSearchFailure : FetchOutcome → Bool
  | FetchOutcome.ok _ => false
  | _ => true

/-- Body of the ingestion backend's `/ingest` response
(`interface IngestResponse` of the `/api/ingest` route). -/
structure IngestBody where
  status : String
  message : String
  documents_processed : Option Nat
  deriving DecidableEq

/-- Outcome of the `fetch` of `POST /ingest` on the local backend: the
fetch can throw, return a non-ok status (whose error text is read), return
an ok status with a body `response.json()` cannot parse, or succeed. -/
inductive IngestFetch where
  | connectionError
  | httpError (status : Nat) (errorText : String)
  | malformedBody
  | ok (body : IngestBody)

/-- The connectivity failure text of the ingest proxy's `catch` branch. -/
def connectivityFailureMsg : String :=
  "Failed to connect to local backend. Is the tunnel running?"

/-- The `/api/ingest` proxy handler (`POST`): HTTP status plus JSON body.
A throwing fetch or a malformed success body both land in the `catch`
and produce the 503 connectivity error; a non-ok status is relayed with
a `Backend returned error` body. -/
def ingestPOST : IngestFetch → Nat × IngestBody
  | IngestFetch.connectionError =>
      (503, ⟨"error", connectivityFailureMsg, none⟩)
  | IngestFetch.malformedBody =>
      (503, ⟨"error", connectivityFailureMsg, none⟩)
  | IngestFetch.httpError s _ =>
      (s, ⟨"error", "Backend returned error: " ++ toString s, none⟩)
  | IngestFetch.ok body => (200, body)

/-- A world holding the state both routes see: the chat environment and
the ingestion backend's state.  The chat handler reads only the chat
part — there is no shared mutable state between the two routes. -/
structure World where
  chat : ChatEnv
  ingest : IngestFetch

/-- The `/chat` handler run against a world: it only ever consults the
chat environment. -/
def chatOnWorld (w : World) (body : Option (Option String)) :
    ChatResponse × List NetCall :=
  chatPOST w.chat body

/-- A string with a non-empty left part of an append is non-empty. -/
theorem append_ne_empty_of_left (a b : String) (h : a ≠ "") : a ++ b ≠ "" := by
  intro hab
  apply h
  rw [String.congr_append] at hab
  cases a with
  | mk da =>
    cases b with
    | mk db =>
      have hnil : da ++ db = [] := by
        have := congrArg String.data hab
        simpa using this
      have hda : da = [] := (List.append_eq_nil.mp hnil).1
      simp [hda]

/-- The join of a non-empty list of non-empty strings is non-empty. -/
theorem joinSep_ne_empty (sep : String) (l : List String)
    (hl : l ≠ []) (hall : ∀ x ∈ l, x ≠ "") : joinSep sep l ≠ "" := by
  match l with
  | [] => exact absurd rfl hl
  | [x] => exact hall x (by simp)
  | x :: y :: xs =>
      show x ++ sep ++ joinSep sep (y :: xs) ≠ ""
      exact append_ne_empty_of_left _ _
        (append_ne_empty_of_left _ _ (hall x (by simp)))

/-- Claim C1: when the retrieval call fails in any of the listed ways
(network unreachable, non-success status, malformed body), the `/chat`
handler still produces a structured success response: the LLM is still
invoked (with the empty context), `hasContext` is `false`, and the
`sources` field is absent. -/
theorem chat_retrieval_failure_absorbed (key m : String) (hk : key ≠ "") (hm : m ≠ "")
    (out : FetchOutcome) (hfail : isSearchFailure out = true) (t : Option String) :
    chatPOST ⟨key, out, LLMOutcome.ok t⟩ (some (some m))
      = (ChatResponse.success (llmAnswer t) none false,
         [NetCall.retrieval m 5, NetCall.llm (llmInput "" m)]) := by
  cases out <;> simp_all [chatPOST, isSearchFailure, isFalsyMessage, searchStep]

/-- Witness for `chat_retrieval_failure_absorbed` at a concrete
unreachable-network environment. -/
theorem chat_retrieval_failure_absorbed_witness :
    ("key" : String) ≠ "" ∧ ("Hello" : String) ≠ ""
      ∧ isSearchFailure FetchOutcome.networkError = true
      ∧ chatPOST ⟨"key", FetchOutcome.networkError, LLMOutcome.ok (some "Hi there.")⟩
          (some (some "Hello"))
        = (ChatResponse.success (llmAnswer (some "Hi there.")) none false,
           [NetCall.retrieval "Hello" 5, NetCall.llm (llmInput "" "Hello")]) :=
  ⟨by decide, by decide, rfl,
   chat_retrieval_failure_absorbed "key" "Hello" (by decide) (by decide)
     FetchOutcome.networkError rfl (some "Hi there.")⟩

/-- Counterexample to claim C2 as stated: a whitespace-only message
(`" "`) is NOT rejected — `!message` only tests for the empty string —
so the handler issues both the retrieval and the LLM call and returns a
success body instead of the 400 validation error. -/
theorem chat_whitespace_message_not_rejected :
    chatPOST ⟨"key", FetchOutcome.ok [], LLMOutcome.ok (some "General answer.")⟩
        (some (some " "))
      = (ChatResponse.success "General answer." none false,
         [NetCall.retrieval " " 5, NetCall.llm (llmInput "" " ")]) := by rfl

/-- Claim C2 (amended): a request whose `message` is the empty string or
whose `message` field is absent is rejected with the 400 validation body
`{ error: "Message is required" }` and no network call is made.
(Whitespace-only but non-empty messages are not rejected.) -/
theorem chat_empty_message_rejected (env : ChatEnv) (msgOpt : Option String)
    (h : isFalsyMessage msgOpt = true) :
    chatPOST env (some msgOpt) = (ChatResponse.errorResp 400 messageRequiredMsg, []) := by
  simp [chatPOST, h]

/-- Witness for `chat_empty_message_rejected` at the empty message. -/
theorem chat_empty_message_rejected_witness :
    isFalsyMessage (some "") = true
      ∧ chatPOST ⟨"key", FetchOutcome.ok [], LLMOutcome.ok (some "hi")⟩ (some (some ""))
        = (ChatResponse.errorResp 400 messageRequiredMsg, []) :=
  ⟨rfl, chat_empty_message_rejected
    ⟨"key", FetchOutcome.ok [], LLMOutcome.ok (some "hi")⟩ (some "") rfl⟩

/-- Counterexample to claim C3 as stated: the retrieval service returns
K = 1 passage, but that passage's `text` is the empty string, so the
joined `context` is empty and `hasContext` comes out `false` even though
K > 0. -/
theorem chat_hasContext_false_with_passage :
    (chatPOST ⟨"key", FetchOutcome.ok [⟨"", 0.9, "doc.md"⟩], LLMOutcome.ok (some "hi")⟩
        (some (some "q"))).1
      = ChatResponse.success "hi" (some ["doc.md"]) false
    ∧ ([⟨"", 0.9, "doc.md"⟩] : List SearchResult).length = 1 :=
  ⟨rfl, rfl⟩

/-- Claim C3 (amended): for a non-empty question with the retrieval
service reachable and returning K passages each of which has non-empty
text, `hasContext` is true iff K > 0.  (In general `hasContext` is the
non-emptiness of the joined context string, which can be `false` for
K = 1 when the single passage's text is empty.) -/
theorem chat_hasContext_iff_passages (key m : String) (hk : key ≠ "") (hm : m ≠ "")
    (results : List SearchResult) (hall : ∀ r ∈ results, r.text ≠ "") (t : Option String) :
    (chatPOST ⟨key, FetchOutcome.ok results, LLMOutcome.ok t⟩
        (some (some m))).1.hasContextField
      = some (!results.isEmpty) := by
  cases results with
  | nil =>
      simp [chatPOST, searchStep, isFalsyMessage, hm, hk, ChatResponse.hasContextField,
        joinSep]
  | cons r rs =>
      have hne : joinSep ctxSep (r.text :: rs.map (fun x => x.text)) ≠ "" := by
        apply joinSep_ne_empty
        · simp
        · intro x hx
          simp only [List.mem_cons, List.mem_map] at hx
          rcases hx with rfl | ⟨a, ha, rfl⟩
          · exact hall r (by simp)
          · exact hall a (by simp [ha])
      simp [chatPOST, searchStep, isFalsyMessage, hm, hk, ChatResponse.hasContextField, hne]

/-- Witness for `chat_hasContext_iff_passages` at one non-empty
passage. -/
theorem chat_hasContext_iff_passages_witness :
    ("key" : String) ≠ "" ∧ ("q" : String) ≠ ""
      ∧ (∀ r ∈ ([⟨"Refunds within 30 days.", 0.9, "policy.pdf"⟩] : List SearchResult),
          r.text ≠ "")
      ∧ (chatPOST ⟨"key", FetchOutcome.ok [⟨"Refunds within 30 days.", 0.9, "policy.pdf"⟩],
            LLMOutcome.ok (some "Refunds are allowed within 30 days.")⟩
          (some (some "q"))).1.hasContextField
        = some true :=
  ⟨by decide, by decide, by decide,
   chat_hasContext_iff_passages "key" "q" (by decide) (by decide)
     [⟨"Refunds within 30 days.", 0.9, "policy.pdf"⟩] (by decide)
     (some "Refunds are allowed within 30 days.")⟩

/-- Counterexample to claim C4 as stated: with `GEMINI_API_KEY` unset and
the retrieval service healthy, the handler's trace shows the retrieval
network call was already issued before the 500 configuration error is
returned, so the handler does NOT fail before making any network call. -/
theorem chat_missing_key_after_network_call :
    chatPOST ⟨"", FetchOutcome.ok [⟨"Refunds within 30 days.", 0.9, "policy.pdf"⟩],
        LLMOutcome.ok (some "hi")⟩ (some (some "q"))
      = (ChatResponse.errorResp 500 configErrorMsg, [NetCall.retrieval "q" 5])
    ∧ (chatPOST ⟨"", FetchOutcome.ok [⟨"Refunds within 30 days.", 0.9, "policy.pdf"⟩],
        LLMOutcome.ok (some "hi")⟩ (some (some "q"))).2 ≠ [] :=
  ⟨rfl, by decide⟩

/-- Claim C4 (amended): a missing LLM credential yields a 500-class
response with the configuration-specific message, distinct from the
generic transient-failure message, and the LLM call is never made —
though the retrieval call has already been issued by that point. -/
theorem chat_missing_key_config_error (env : ChatEnv) (m : String) (hm : m ≠ "")
    (hkey : env.geminiKey = "") :
    chatPOST env (some (some m))
      = (ChatResponse.errorResp 500 configErrorMsg, [NetCall.retrieval m 5])
    ∧ configErrorMsg ≠ genericErrorMsg := by
  refine ⟨?_, by decide⟩
  simp [chatPOST, isFalsyMessage, hm, hkey]

/-- Witness for `chat_missing_key_config_error` with a healthy retrieval
service returning a passage. -/
theorem chat_missing_key_config_error_witness :
    ("q" : String) ≠ ""
      ∧ (ChatEnv.mk "" (FetchOutcome.ok [⟨"text", 0.5, "doc.md"⟩])
          (LLMOutcome.ok (some "hi"))).geminiKey = ""
      ∧ (chatPOST ⟨"", FetchOutcome.ok [⟨"text", 0.5, "doc.md"⟩], LLMOutcome.ok (some "hi")⟩
            (some (some "q"))
          = (ChatResponse.errorResp 500 configErrorMsg, [NetCall.retrieval "q" 5])
        ∧ configErrorMsg ≠ genericErrorMsg) :=
  ⟨by decide, rfl,
   chat_missing_key_config_error
     ⟨"", FetchOutcome.ok [⟨"text", 0.5, "doc.md"⟩], LLMOutcome.ok (some "hi")⟩
     "q" (by decide) rfl⟩

/-- Claim C5: in a successful `/chat` response the `sources` field is
present iff the retrieval service returned at least one record; when
present it is exactly the service's source list in original order with
duplicates preserved, and when the list is empty the field is absent
(not an empty list). -/
theorem chat_sources_iff_records (key m : String) (hk : key ≠ "") (hm : m ≠ "")
    (results : List SearchResult) (t : Option String) :
    (chatPOST ⟨key, FetchOutcome.ok results, LLMOutcome.ok t⟩
        (some (some m))).1.sourcesField
      = if results.isEmpty then none else some (results.map (fun r => r.source)) := by
  cases results <;>
    simp [chatPOST, searchStep, isFalsyMessage, hm, hk, ChatResponse.sourcesField]

/-- Witness for `chat_sources_iff_records` at two records. -/
theorem chat_sources_iff_records_witness :
    ("key" : String) ≠ "" ∧ ("q" : String) ≠ ""
      ∧ (chatPOST ⟨"key", FetchOutcome.ok [⟨"Alpha.", 0.5, "a.md"⟩, ⟨"Beta.", 0.4, "b.md"⟩],
            LLMOutcome.ok (some "hi")⟩ (some (some "q"))).1.sourcesField
        = some ["a.md", "b.md"] :=
  ⟨by decide, by decide,
   chat_sources_iff_records "key" "q" (by decide) (by decide)
     [⟨"Alpha.", 0.5, "a.md"⟩, ⟨"Beta.", 0.4, "b.md"⟩] (some "hi")⟩

/-- Counterexample to claim C6 as stated: two passages sharing the source
identifier `"doc.md"` yield an assembled source list in which `"doc.md"`
appears twice — the handler performs no deduplication. -/
theorem chat_duplicate_sources_in_list :
    (searchStep (FetchOutcome.ok
        [⟨"Alpha.", 0.9, "doc.md"⟩, ⟨"Beta.", 0.8, "doc.md"⟩])).2
      = ["doc.md", "doc.md"]
    ∧ List.count "doc.md" ["doc.md", "doc.md"] = 2 :=
  ⟨rfl, by decide⟩

/-- Claim C6 (amended): the assembled source list is the passages' source
identifiers in retrieval order with duplicates preserved — each
identifier occurs exactly as many times as there are records carrying
it. -/
theorem chat_source_multiplicity_preserved (results : List SearchResult) (s : String) :
    List.count s (searchStep (FetchOutcome.ok results)).2
      = (results.filter (fun r => r.source = s)).length := by
  induction results with
  | nil => simp [searchStep]
  | cons a as ih =>
      by_cases h : a.source = s
      · simp_all [searchStep, List.count_cons, h]
      · simp_all [searchStep, List.count_cons, h, Ne.symm h]

/-- Counterexample to claim C7 as stated: one retrieved passage with
empty text makes the joined context the empty string, so the composed
LLM input interpolates the "no context available" marker even though
there IS a passage; interpolating the concatenation of the passage texts
(as the claim requires) would give a different string. -/
theorem chat_marker_despite_passages :
    (chatPOST ⟨"key", FetchOutcome.ok [⟨"", 0.9, "doc.md"⟩], LLMOutcome.ok (some "hi")⟩
        (some (some "q"))).2
      = [NetCall.retrieval "q" 5, NetCall.llm (specInterpolate noContextMarker "q")]
    ∧ specInterpolate noContextMarker "q" ≠ specInterpolate (joinSep ctxSep [""]) "q" :=
  ⟨rfl, by decide⟩

/-- Claim C7 (amended): the composed LLM input is the fixed template
interpolated with the literal user question and a grounding text that is
the join of the passage texts (in service order, separated by the fixed
`"\n\n---\n\n"` marker) when that join is non-empty, and the fixed
"no context available" marker string when the join is empty (no passages,
or all passage texts empty). -/
theorem chat_llm_input_template (key m : String) (hk : key ≠ "") (hm : m ≠ "")
    (results : List SearchResult) (t : Option String) :
    (chatPOST ⟨key, FetchOutcome.ok results, LLMOutcome.ok t⟩ (some (some m))).2
      = [NetCall.retrieval m 5,
         NetCall.llm (specInterpolate
           (if joinSep ctxSep (results.map (fun r => r.text)) = ""
            then noContextMarker
            else joinSep ctxSep (results.map (fun r => r.text))) m)] := by
  simp only [chatPOST, searchStep, isFalsyMessage, hm, hk, llmInput, systemPrompt,
    specInterpolate, decide_eq_true_eq]
  split <;> simp_all [String.append_assoc]

/-- Witness for `chat_llm_input_template` at two passages. -/
theorem chat_llm_input_template_witness :
    ("key" : String) ≠ "" ∧ ("q" : String) ≠ ""
      ∧ (chatPOST ⟨"key", FetchOutcome.ok [⟨"Alpha.", 0.9, "a.md"⟩, ⟨"Beta.", 0.8, "b.md"⟩],
            LLMOutcome.ok (some "hi")⟩ (some (some "q"))).2
        = [NetCall.retrieval "q" 5,
           NetCall.llm (specInterpolate (joinSep ctxSep ["Alpha.", "Beta."]) "q")] :=
  ⟨by decide, by decide,
   chat_llm_input_template "key" "q" (by decide) (by decide)
     [⟨"Alpha.", 0.9, "a.md"⟩, ⟨"Beta.", 0.8, "b.md"⟩] (some "hi")⟩

/-- Claim C8: in a successful response the `answer` field is the LLM's
returned text when that text is non-empty, and the fixed fallback
sentence when the LLM's text payload is empty or absent. -/
theorem chat_answer_text_or_fallback (key m : String) (hk : key ≠ "") (hm : m ≠ "")
    (out : FetchOutcome) (t : Option String) :
    (chatPOST ⟨key, out, LLMOutcome.ok t⟩ (some (some m))).1.answerField
      = some (if t.getD "" = "" then fallbackAnswer else t.getD "") := by
  cases out <;> cases t <;>
    simp [chatPOST, searchStep, isFalsyMessage, hm, hk, ChatResponse.answerField, llmAnswer]

/-- Witness for `chat_answer_text_or_fallback` with an empty LLM
payload, exercising the fallback sentence. -/
theorem chat_answer_text_or_fallback_witness :
    ("key" : String) ≠ "" ∧ ("q" : String) ≠ ""
      ∧ (chatPOST ⟨"key", FetchOutcome.ok [], LLMOutcome.ok (some "")⟩
            (some (some "q"))).1.answerField
        = some fallbackAnswer :=
  ⟨by decide, by decide,
   chat_answer_text_or_fallback "key" "q" (by decide) (by decide)
     (FetchOutcome.ok []) (some "")⟩

/-- Claim C9: when the connection to the ingestion backend fails, the
`/api/ingest` proxy returns HTTP 503 with the `{ status: "error",
message: <connectivity failure text> }` body; and the `/chat` handler's
behaviour is a function of the chat environment alone — it is unaffected
by the ingestion backend's state (no shared mutable state between the
routes). -/
theorem ingest_connection_failure_isolated :
    ingestPOST IngestFetch.connectionError
      = (503, ⟨"error", connectivityFailureMsg, none⟩)
    ∧ ∀ (e : ChatEnv) (i j : IngestFetch) (b : Option (Option String)),
        chatOnWorld ⟨e, i⟩ b = chatOnWorld ⟨e, j⟩ b :=
  ⟨rfl, fun _ _ _ _ => rfl⟩

/-- Claim C10: a request body that is not valid JSON makes
`request.json()` throw into the outer `catch`, producing the generic 500
body (not the 400 validation body) with no retrieval and no LLM call. -/
theorem chat_invalid_json_generic_500 (env : ChatEnv) :
    chatPOST env none = (ChatResponse.errorResp 500 genericErrorMsg, []) := rfl

end ApnaRAG
